import Mathlib

/-!
Verification of the frame-lifecycle and resource-synchronization engine of
Rust-Renderer-VK (src/main.rs) against its natural-language specification.
The Rust code is shallowly embedded: pure helpers become Lean functions,
the per-frame scheduler (draw_frame) becomes a step function on an explicit
state together with the ordered list of Vulkan calls (events) it makes, and
panics become `none` / `Except.error` results.
-/

namespace RendererVK

/-! ## Basic geometry and surface data (src/main.rs: vk::Extent2D,
vk::SurfaceCapabilitiesKHR as used by the swapchain code) -/

structure Extent2D where
  width : Nat
  height : Nat
deriving DecidableEq

/-- Fields of vk::SurfaceCapabilitiesKHR that create_swap_chain and
choose_swap_extent read. All are u32-valued in Vulkan. -/
structure SurfaceCapabilities where
  minImageCount : Nat
  maxImageCount : Nat
  currentExtent : Extent2D
  minImageExtent : Extent2D
  maxImageExtent : Extent2D
deriving DecidableEq

/-- u32::MAX, the Vulkan sentinel meaning "the surface lets the swapchain
choose its own extent" (src/main.rs line 784). -/
def U32_MAX : Nat := 4294967295

/-- num::clamp(input, min, max) as the num crate defines it. -/
def num_clamp (input lo hi : Nat) : Nat :=
  if input < lo then lo else if input > hi then hi else input

/-- choose_swap_extent (src/main.rs lines 780-797): use the surface's
current_extent verbatim unless its width is the u32::MAX sentinel, in which
case clamp the window's inner size into the surface's min/max extent bounds. -/
def choose_swap_extent (caps : SurfaceCapabilities) (windowSize : Extent2D) : Extent2D :=
  if caps.currentExtent.width ≠ U32_MAX then
    caps.currentExtent
  else
    { width := num_clamp windowSize.width caps.minImageExtent.width caps.maxImageExtent.width
      height := num_clamp windowSize.height caps.minImageExtent.height caps.maxImageExtent.height }

/-- The image-count computation of create_swap_chain (src/main.rs lines
814-823): preferred count is min_image_count + 1; a nonzero max_image_count
that is smaller than the preferred count wins. -/
def swap_chain_image_count (caps : SurfaceCapabilities) : Nat :=
  let preferred := caps.minImageCount + 1
  if caps.maxImageCount > 0 && caps.maxImageCount < preferred then
    caps.maxImageCount
  else
    preferred

/-- The swapchain data create_swap_chain derives from the surface
capabilities and window size that the claims are about (src/main.rs lines
799-874): the chosen extent and image count. The swapchain is created
unconditionally with this extent. -/
structure SwapchainInfo where
  extent : Extent2D
  imageCount : Nat
deriving DecidableEq

/-- create_swap_chain (src/main.rs lines 799-874), restricted to the extent
and image-count outputs: there is no check anywhere that the chosen extent is
nonzero before vkCreateSwapchainKHR is called. -/
def create_swap_chain (caps : SurfaceCapabilities) (windowSize : Extent2D) : SwapchainInfo :=
  { extent := choose_swap_extent caps windowSize
    imageCount := swap_chain_image_count caps }

/-- The swapchain-lifecycle state recreate_swapchain acts on: the current
swapchain and how many times the dependent chain has been rebuilt. -/
structure SwapchainLifecycle where
  current : SwapchainInfo
  rebuildCount : Nat
deriving DecidableEq

/-- recreate_swapchain (src/main.rs lines 1670-1768): device_wait_idle, then
cleanup_swapchain, then unconditionally re-create the swapchain and every
dependent object from the freshly queried surface capabilities. The source
contains no zero-extent (minimized-window) check and no deferral path: every
call rebuilds exactly once with whatever extent choose_swap_extent returns. -/
def recreate_swapchain (st : SwapchainLifecycle) (caps : SurfaceCapabilities)
    (windowSize : Extent2D) : SwapchainLifecycle :=
  { current := create_swap_chain caps windowSize
    rebuildCount := st.rebuildCount + 1 }

/-! ## Synchronisation primitives (src/main.rs lines 26, 1620-1654) -/

/-- MAX_FRAMES_IN_FLIGHT (src/main.rs line 26). -/
def MAX_FRAMES_IN_FLIGHT : Nat := 2

/-- A fence as the CPU observes it: whether it is currently signaled.
Fences made by create_synchronisation_primitives carry
vk::FenceCreateFlags::SIGNALED (src/main.rs line 1638). -/
structure FenceState where
  signaled : Bool
deriving DecidableEq

/-- The three vectors create_synchronisation_primitives returns. Semaphores
have no CPU-observable state, so they are modelled as unit tokens. -/
structure SyncPrimitives where
  image_available_semaphores : List Unit
  render_complete_semaphores : List Unit
  frame_fences : List FenceState
deriving DecidableEq

/-- create_synchronisation_primitives (src/main.rs lines 1620-1654): loop
MAX_FRAMES_IN_FLIGHT times, each iteration pushing one image-available
semaphore, one render-complete semaphore and one fence created in the
signaled state. -/
def create_synchronisation_primitives : SyncPrimitives :=
  (List.range MAX_FRAMES_IN_FLIGHT).foldl
    (fun acc _ =>
      { image_available_semaphores := acc.image_available_semaphores ++ [()]
        render_complete_semaphores := acc.render_complete_semaphores ++ [()]
        frame_fences := acc.frame_fences ++ [{ signaled := true }] })
    { image_available_semaphores := [], render_complete_semaphores := [], frame_fences := [] }

/-- wait_for_fences with an infinite timeout, observed in a world where no
submission has ever been made with the fence: it can only return if the
fence is already signaled (nothing else will ever signal it). -/
def wait_completes_with_no_pending_work (f : FenceState) : Bool := f.signaled

/-! ## Teardown sequences (src/main.rs lines 1770-1810 cleanup_swapchain,
2503-2545 Drop, 1670-1677 the head of recreate_swapchain) -/

inductive TeardownOp where
  | deviceWaitIdle
  | destroyResource (name : String)
  | freeResource (name : String)
deriving DecidableEq

/-- cleanup_swapchain (src/main.rs lines 1770-1810), as the ordered list of
destroy/free calls it makes. -/
def cleanup_swapchain_ops : List TeardownOp :=
  [ .destroyResource "framebuffers"
  , .destroyResource "uniform_buffers"
  , .freeResource "uniform_buffers_memory"
  , .destroyResource "depth_image_view"
  , .destroyResource "depth_image"
  , .freeResource "depth_image_memory"
  , .destroyResource "descriptor_pool"
  , .freeResource "command_buffers"
  , .destroyResource "graphics_pipeline"
  , .destroyResource "pipeline_layout"
  , .destroyResource "render_pass"
  , .destroyResource "swapchain_image_views"
  , .destroyResource "swapchain" ]

/-- The Drop impl for HelloTriangleApplication (src/main.rs lines
2503-2545), as the ordered list of teardown operations it performs. It calls
cleanup_swapchain first and contains no device_wait_idle anywhere. -/
def drop_ops : List TeardownOp :=
  cleanup_swapchain_ops ++
  [ .destroyResource "texture_sampler"
  , .destroyResource "texture_image_view"
  , .destroyResource "image"
  , .freeResource "image_memory"
  , .destroyResource "descriptor_set_layout"
  , .destroyResource "vertex_buffer"
  , .freeResource "vertex_buffer_memory"
  , .destroyResource "index_buffer"
  , .freeResource "index_buffer_memory"
  , .destroyResource "image_available_semaphores"
  , .destroyResource "render_complete_semaphores"
  , .destroyResource "frame_fences"
  , .destroyResource "command_pool"
  , .destroyResource "surface"
  , .destroyResource "logical_device"
  , .destroyResource "instance" ]

/-- recreate_swapchain's own teardown prelude (src/main.rs lines 1671-1677):
unlike Drop, it runs device_wait_idle before calling cleanup_swapchain. -/
def recreate_swapchain_teardown_ops : List TeardownOp :=
  TeardownOp.deviceWaitIdle :: cleanup_swapchain_ops

/-- An operation that destroys or frees a GPU resource. -/
def isDestroyOrFree : TeardownOp → Bool
  | .deviceWaitIdle => false
  | .destroyResource _ => true
  | .freeResource _ => true

/-! ## Physical-device selection (src/main.rs lines 495-635) -/

/-- vk::PhysicalDeviceType, as far as is_device_suitable distinguishes it. -/
inductive DeviceType where
  | discreteGpu
  | integratedGpu
  | virtualGpu
  | cpu
  | other
deriving DecidableEq

/-- One queue family as find_queue_families reads it: its queue count,
whether its flags contain GRAPHICS, and whether
get_physical_device_surface_support reports present support for it on the
given surface. -/
structure QueueFamily where
  queueCount : Nat
  graphics : Bool
  present : Bool
deriving DecidableEq

/-- QueueFamilyIndices (src/main.rs lines 155-161). -/
structure QueueFamilyIndices where
  graphics_family : Option Nat
  present_family : Option Nat
deriving DecidableEq

/-- QueueFamilyIndices::is_complete (src/main.rs line 159). -/
def QueueFamilyIndices.is_complete (q : QueueFamilyIndices) : Bool :=
  q.graphics_family.isSome && q.present_family.isSome

/-- The loop body of find_queue_families (src/main.rs lines 607-625):
walk the families in enumeration order, recording the latest family with
queues and GRAPHICS, and the latest family with queues and present support,
stopping early once both are recorded. -/
def find_queue_families_loop (i : Nat) (families : List QueueFamily)
    (indices : QueueFamilyIndices) : QueueFamilyIndices :=
  match families with
  | [] => indices
  | family :: rest =>
      let indices1 :=
        if family.queueCount > 0 && family.graphics then
          { indices with graphics_family := some i }
        else indices
      let indices2 :=
        if family.queueCount > 0 && family.present then
          { indices1 with present_family := some i }
        else indices1
      if indices2.is_complete then indices2
      else find_queue_families_loop (i + 1) rest indices2

/-- find_queue_families (src/main.rs lines 594-628). -/
def find_queue_families (families : List QueueFamily) : QueueFamilyIndices :=
  find_queue_families_loop 0 families { graphics_family := none, present_family := none }

/-- A physical device as the selection code observes it through the
instance/surface queries: its type, the two feature bits is_device_suitable
reads (geometry_shader, sampler_anisotropy, VkBool32 compared against 1 in
the source), its available extension names, its queue families, and the
surface formats / present modes reported for the given surface. -/
structure PhysicalDevice where
  deviceType : DeviceType
  geometryShader : Bool
  samplerAnisotropy : Bool
  availableExtensions : List String
  queueFamilies : List QueueFamily
  surfaceFormats : List Nat
  presentModes : List Nat
deriving DecidableEq

/-- get_device_extensions (src/main.rs lines 633-635): just the swapchain
extension. -/
def get_device_extensions : List String := ["VK_KHR_swapchain"]

/-- check_device_extension_support (src/main.rs lines 563-589): fold over the
required extensions, conjoining membership in the available list. -/
def check_device_extension_support (available : List String)
    (required : List String) : Bool :=
  required.foldl (fun acc req => available.contains req && acc) true

/-- is_device_suitable (src/main.rs lines 522-561). Beyond the queue
families, extensions and the two feature bits, the source also requires the
device to be a DISCRETE_GPU and (once the extensions are present) the
surface to report at least one format and at least one present mode. -/
def is_device_suitable (d : PhysicalDevice) : Bool :=
  let required_device_extensions_supported :=
    check_device_extension_support d.availableExtensions get_device_extensions
  let supports_required_families := (find_queue_families d.queueFamilies).is_complete
  if required_device_extensions_supported then
    let swap_chain_adequate := !d.surfaceFormats.isEmpty && !d.presentModes.isEmpty
    (d.deviceType == DeviceType.discreteGpu) && d.geometryShader
      && supports_required_families && swap_chain_adequate && d.samplerAnisotropy
  else
    false

/-- pick_physical_device (src/main.rs lines 495-520): empty enumeration gives
no device, otherwise the first enumerated device that is_device_suitable
accepts (enumeration failure, an external condition, is out of scope). -/
def pick_physical_device (devices : List PhysicalDevice) : Option PhysicalDevice :=
  if devices.length = 0 then none
  else devices.find? is_device_suitable

/-- Modelled from the spec's words (refinement comparison for C5): a device
is suitable exactly when it has a graphics-capable queue family, a queue
family with present support, the required device extensions, and the
anisotropic-sampling and geometry-shader features — and nothing else. -/
def spec_suitable_device (d : PhysicalDevice) : Bool :=
  (find_queue_families d.queueFamilies).is_complete
    && check_device_extension_support d.availableExtensions get_device_extensions
    && d.samplerAnisotropy && d.geometryShader

/-- The physical-device step of initialize (src/main.rs lines 262-266):
a missing device is fatal (the source panics with this message). -/
def initialize_physical_device (devices : List PhysicalDevice) :
    Except String PhysicalDevice :=
  match pick_physical_device devices with
  | some d => Except.ok d
  | none => Except.error "No suitable physical device"

/-! ## Memory-type selection (src/main.rs lines 1386-1401) -/

/-- One entry of vk::PhysicalDeviceMemoryProperties::memory_types: its
property flags as a bitmask. -/
structure MemoryType where
  propertyFlags : Nat
deriving DecidableEq

instance : Inhabited MemoryType := ⟨{ propertyFlags := 0 }⟩

/-- vk::MemoryPropertyFlags::contains(required): every bit of `required` is
set in `flags`. -/
def flags_contain (flags required : Nat) : Bool :=
  flags &&& required == required

/-- The per-index test in find_memory_type's loop (src/main.rs lines
1393-1394): `(type_filter & (1 << i)) > 0 && property_flags.contains(required)`,
the shift being u32 arithmetic (mod 2^32). -/
def memory_type_test (type_filter required flags i : Nat) : Bool :=
  decide (0 < type_filter &&& ((1 <<< i) % 4294967296)) && flags_contain flags required

/-- The enumerate-and-return-first loop of find_memory_type. -/
def find_memory_type_loop (type_filter required : Nat) :
    Nat → List MemoryType → Option Nat
  | _, [] => none
  | i, mt :: rest =>
      if memory_type_test type_filter required mt.propertyFlags i then some i
      else find_memory_type_loop type_filter required (i + 1) rest

/-- find_memory_type (src/main.rs lines 1386-1401): scan the memory-type
table from index 0 and return the first index whose filter bit is set and
whose property flags contain the required flags; the source panics when the
scan falls through, modelled as `none`. -/
def find_memory_type (type_filter required : Nat) (memoryTypes : List MemoryType) :
    Option Nat :=
  find_memory_type_loop type_filter required 0 memoryTypes

/-- The claim's description of a matching index: bit i of the filter is set
and the i-th memory type's property flags are a superset of the required
flags. -/
def spec_memory_match (type_filter required : Nat) (ts : List MemoryType) (i : Nat) : Prop :=
  type_filter.testBit i ∧
  flags_contain (ts.getD i default).propertyFlags required = true

instance (type_filter required : Nat) (ts : List MemoryType) (i : Nat) :
    Decidable (spec_memory_match type_filter required ts i) :=
  inferInstanceAs (Decidable (_ ∧ _))

/-! ## The frame scheduler: draw_frame (src/main.rs lines 1813-1921) -/

/-- The result of acquire_next_image as draw_frame matches on it
(src/main.rs lines 1823-1837): a successful index, ERROR_OUT_OF_DATE_KHR, or
any other error (which the source turns into a panic). -/
inductive AcquireResult where
  | ok (idx : Nat)
  | outOfDate
  | otherError
deriving DecidableEq

/-- The result of queue_present as draw_frame matches on it (src/main.rs
lines 1894-1918): Ok carries the suboptimal flag (which the source ignores),
and any Err — ERROR_OUT_OF_DATE_KHR included — is matched by the panicking
arm `(Err(_), _)`. -/
inductive PresentResult where
  | ok (suboptimal : Bool)
  | errOutOfDate
  | errOther
deriving DecidableEq

/-- The scheduler fields of HelloTriangleApplication that draw_frame reads
and writes. Fences are identified by Nat handles with 0 standing for
vk::Fence::null(); image_fences is created all-null, one slot per swapchain
image (src/main.rs lines 417-419). -/
structure DrawState where
  frame_fences : List Nat
  image_fences : List Nat
  current_frame : Nat
  frame_buffer_resized : Bool
deriving DecidableEq

/-- The Vulkan calls draw_frame makes, in source order. -/
inductive Event where
  | waitFence (f : Nat)
  | acquireImage
  | recreateSwapchain
  | writeUniform (i : Nat)
  | resetFence (f : Nat)
  | submitCommands (i : Nat) (f : Nat)
  | presentImage (i : Nat)
  | presentQueueWaitIdle
deriving DecidableEq

/-- draw_frame (src/main.rs lines 1813-1921), as the ordered list of Vulkan
calls it makes this tick together with the state it leaves behind (`none`
models a panic). Mirroring the source: wait the slot fence (1814-1820);
match the acquire result (1823-1842), recreating and returning early on
out-of-date, panicking on other errors; update the uniform buffer for the
acquired image (1844); wait the image's in-flight fence when it is not null
and record the slot fence as the image's new claimant (1846-1855); reset the
slot fence, submit signalling it, present, and wait the present queue idle
(1873-1905); finally match (present result, resize flag) — a set resize flag
is merely cleared (the recreate call there is commented out in the source),
a present error without the flag panics (1907-1918) — and advance the frame
slot modulo MAX_FRAMES_IN_FLIGHT (1920). -/
def draw_frame (s : DrawState) (acq : AcquireResult) (pres : PresentResult) :
    List Event × Option DrawState :=
  let slotFence := s.frame_fences.getD s.current_frame 0
  match acq with
  | .outOfDate =>
      ([.waitFence slotFence, .acquireImage, .recreateSwapchain], some s)
  | .otherError =>
      ([.waitFence slotFence, .acquireImage], none)
  | .ok image_index =>
      let imageFence := s.image_fences.getD image_index 0
      let waitImage : List Event :=
        if imageFence ≠ 0 then [.waitFence imageFence] else []
      let s1 : DrawState :=
        { s with image_fences := s.image_fences.set image_index slotFence }
      let evs : List Event :=
        [.waitFence slotFence, .acquireImage, .writeUniform image_index] ++ waitImage ++
          [.resetFence slotFence, .submitCommands image_index slotFence,
           .presentImage image_index, .presentQueueWaitIdle]
      let result : Option DrawState :=
        match pres, s.frame_buffer_resized with
        | _, true =>
            some { s1 with frame_buffer_resized := false,
                           current_frame := (s.current_frame + 1) % MAX_FRAMES_IN_FLIGHT }
        | .ok _, false =>
            some { s1 with current_frame := (s.current_frame + 1) % MAX_FRAMES_IN_FLIGHT }
        | .errOutOfDate, false => none
        | .errOther, false => none
      (evs, result)

/-- The Resized arm of main_loop's event match (src/main.rs lines
1980-1983): it only sets the resize flag. -/
def handle_resize_event (s : DrawState) : DrawState :=
  { s with frame_buffer_resized := true }

/-- Drive draw_frame over a list of per-tick environment results,
concatenating the call traces; a panic stops the run. -/
def run_frames (s : DrawState) :
    List (AcquireResult × PresentResult) → List Event × Option DrawState
  | [] => ([], some s)
  | inp :: rest =>
      match (draw_frame s inp.1 inp.2).2 with
      | none => ((draw_frame s inp.1 inp.2).1, none)
      | some s1 =>
          ((draw_frame s inp.1 inp.2).1 ++ (run_frames s1 rest).1, (run_frames s1 rest).2)

/-! ## The image-in-flight synchronization property (C1). A trace is well
synchronized when every submission that references swapchain image i is
preceded — since the previous submission referencing i — by a wait on the
fence that claimed i at that previous submission. The checker scans the
trace keeping, per image, the claiming fence not yet waited on. -/

/-- Forget every pending claim held by fence f (a wait on f retires them). -/
def clearFence (f : Nat) (pending : List Nat) : List Nat :=
  pending.map fun g => if g = f then 0 else g

/-- How one event updates the per-image pending-claim table. -/
def stepPending (pending : List Nat) : Event → List Nat
  | .waitFence f => clearFence f pending
  | .submitCommands i f => pending.set i f
  | _ => pending

/-- An event is admissible: a submission referencing image i requires that
no un-waited fence still claims i. -/
def eventOk (pending : List Nat) : Event → Bool
  | .submitCommands i _ => pending.getD i 0 == 0
  | _ => true

/-- Every event of the trace is admissible at its point. -/
def checkTrace (pending : List Nat) : List Event → Bool
  | [] => true
  | e :: rest => eventOk pending e && checkTrace (stepPending pending e) rest

/-- The simulation invariant tying the checker's pending table to the
scheduler's image_fences: same length, and per image the pending claim is
either exactly the recorded in-flight fence or already retired. -/
def PendingInv (pending : List Nat) (s : DrawState) : Prop :=
  pending.length = s.image_fences.length ∧
  ∀ j, pending.getD j 0 = s.image_fences.getD j 0 ∨ pending.getD j 0 = 0

/-! ## update_uniform_buffer (src/main.rs lines 1923-1966) -/

/-- The per-frame uniform payload. The source computes three 4x4 f32
matrices (a rotation from the elapsed time, a fixed look-at view, a
perspective projection from the swapchain aspect ratio); their
floating-point contents are abstracted here as the data that determines
them: the elapsed time and the extent in effect at the write. -/
structure UniformWrite where
  elapsedNanos : Nat
  extent : Extent2D
deriving DecidableEq

/-- The fields of HelloTriangleApplication that update_uniform_buffer can
observe or affect, together with the mapped device memory it writes through:
device_memory maps a vk::DeviceMemory handle to the uniform payload last
written there. update_uniform_buffer takes &self in the source, so every
Rust field is untouched; only the mapped memory changes. -/
structure RenderResources where
  uniform_buffers : List Nat
  uniform_buffers_memory : List Nat
  device_memory : Nat → Option UniformWrite
  swapchain_extent : Extent2D
  start_time : Nat
  now_time : Nat
  current_frame : Nat
  frame_buffer_resized : Bool

/-- update_uniform_buffer (src/main.rs lines 1923-1966): compute the payload
from the elapsed time and the current swapchain extent, map the device
memory of uniform_buffers_memory[current_image], copy the payload in, and
unmap. No other memory handle and no field of the application is written. -/
def update_uniform_buffer (s : RenderResources) (current_image : Nat) : RenderResources :=
  let payload : UniformWrite :=
    { elapsedNanos := s.now_time - s.start_time, extent := s.swapchain_extent }
  { s with device_memory := fun h =>
      if h = s.uniform_buffers_memory.getD current_image 0 then some payload
      else s.device_memory h }

/-- A concrete state for exercising update_uniform_buffer: two uniform
buffers with distinct memory handles 10 and 11, nothing written yet. -/
def sample_render_resources : RenderResources :=
  { uniform_buffers := [1, 2]
    uniform_buffers_memory := [10, 11]
    device_memory := fun _ => none
    swapchain_extent := { width := 800, height := 600 }
    start_time := 0
    now_time := 5
    current_frame := 0
    frame_buffer_resized := false }

end RendererVK

namespace RendererVK

/-! ## Claim theorems on the swapchain parameters and teardown order -/

/-- C8: for all surface capability values, the swapchain image count equals
min_image_count + 1 clamped to max_image_count when that bound is nonzero:
image_count = if max > 0 then min (min + 1) max else min + 1. -/
theorem swap_chain_image_count_clamped (caps : SurfaceCapabilities) :
    swap_chain_image_count caps =
      if caps.maxImageCount > 0 then
        min (caps.minImageCount + 1) caps.maxImageCount
      else
        caps.minImageCount + 1 := by
  unfold swap_chain_image_count
  by_cases h1 : caps.maxImageCount > 0
  · by_cases h2 : caps.maxImageCount < caps.minImageCount + 1
    · simp [h1, h2, Nat.min_eq_right (Nat.le_of_lt h2)]
    · simp [h1, h2, Nat.min_eq_left (Nat.le_of_not_lt h2)]
  · simp [h1]

/-- C10: create_synchronisation_primitives yields exactly MAX_FRAMES_IN_FLIGHT
(= 2) image-available semaphores, 2 render-complete semaphores and 2 frame
fences; every frame fence is created signaled, so the first slot-fence wait of
draw_frame completes on each slot even though nothing was ever submitted with
that fence. -/
theorem create_synchronisation_primitives_spec :
    MAX_FRAMES_IN_FLIGHT = 2 ∧
    create_synchronisation_primitives.image_available_semaphores.length = 2 ∧
    create_synchronisation_primitives.render_complete_semaphores.length = 2 ∧
    create_synchronisation_primitives.frame_fences.length = 2 ∧
    create_synchronisation_primitives.frame_fences.all (fun f => f.signaled) = true ∧
    create_synchronisation_primitives.frame_fences.all
      (fun f => wait_completes_with_no_pending_work f) = true := by
  decide

/-- C4: the claim says a device-idle barrier precedes every destroy/free in
the shutdown teardown. In the source the Drop impl starts destroying
resources immediately (its first operation is a destroy from
cleanup_swapchain) and contains no device_wait_idle at all — while
recreate_swapchain, which runs the very same cleanup_swapchain, does wait
for the device first, so the unguarded Drop is a slip, not a design choice. -/
theorem drop_teardown_missing_idle_barrier :
    TeardownOp.deviceWaitIdle ∉ drop_ops ∧
    drop_ops.head? = some (TeardownOp.destroyResource "framebuffers") ∧
    isDestroyOrFree (drop_ops.headD TeardownOp.deviceWaitIdle) = true ∧
    recreate_swapchain_teardown_ops.head? = some TeardownOp.deviceWaitIdle := by
  decide

/-- C3 counterexample: with a minimized window the surface reports current
extent (0, 0) (width 0 is not the u32::MAX sentinel, so it is used
verbatim). A recreation request in that state is not deferred: the code
rebuilds immediately and creates a swapchain whose extent is (0, 0),
contradicting the claim that no zero-size swapchain is ever created. -/
theorem recreate_swapchain_zero_extent_cex :
    (recreate_swapchain
        { current := { extent := { width := 800, height := 600 }, imageCount := 3 }
          rebuildCount := 0 }
        { minImageCount := 2, maxImageCount := 3
          currentExtent := { width := 0, height := 0 }
          minImageExtent := { width := 0, height := 0 }
          maxImageExtent := { width := 4096, height := 4096 } }
        { width := 0, height := 0 }).current.extent = { width := 0, height := 0 } ∧
    (recreate_swapchain
        { current := { extent := { width := 800, height := 600 }, imageCount := 3 }
          rebuildCount := 0 }
        { minImageCount := 2, maxImageCount := 3
          currentExtent := { width := 0, height := 0 }
          minImageExtent := { width := 0, height := 0 }
          maxImageExtent := { width := 4096, height := 4096 } }
        { width := 0, height := 0 }).rebuildCount = 1 := by
  decide

/-- C3 amended: swapchain recreation is never deferred. Every recreation
request rebuilds the dependent chain immediately — exactly once per request —
using whatever extent choose_swap_extent reports, and when the surface
reports a fixed current extent (width differing from the u32::MAX sentinel)
that extent is used verbatim even when it is zero in a dimension, so a
minimized window leads to a zero-size swapchain rather than a deferral. -/
theorem recreate_swapchain_not_deferred (st : SwapchainLifecycle)
    (caps : SurfaceCapabilities) (windowSize : Extent2D) :
    (recreate_swapchain st caps windowSize).rebuildCount = st.rebuildCount + 1 ∧
    (recreate_swapchain st caps windowSize).current.extent = choose_swap_extent caps windowSize ∧
    (caps.currentExtent.width ≠ U32_MAX →
      (recreate_swapchain st caps windowSize).current.extent = caps.currentExtent) := by
  refine ⟨rfl, rfl, fun h => ?_⟩
  simp [recreate_swapchain, create_swap_chain, choose_swap_extent, h]

/-- Helper: a successful List.find? returns the first element satisfying the
predicate — it satisfies the predicate and everything before it fails it. -/
theorem find?_first_match {α : Type} (p : α → Bool) :
    ∀ (l : List α) (a : α), l.find? p = some a →
      p a = true ∧ ∃ pre post, l = pre ++ a :: post ∧ ∀ e ∈ pre, p e = false := by
  intro l
  induction l with
  | nil => intro a h; simp [List.find?] at h
  | cons x xs ih =>
      intro a h
      rcases hx : p x with _ | _
      · rw [List.find?, hx] at h
        obtain ⟨hpa, pre, post, hsplit, hpre⟩ := ih a h
        refine ⟨hpa, x :: pre, post, by simp [hsplit], ?_⟩
        intro e he
        rcases List.mem_cons.mp he with rfl | he'
        · exact hx
        · exact hpre e he'
      · rw [List.find?, hx] at h
        cases h
        exact ⟨hx, [], xs, rfl, by simp⟩

/-- C5 counterexample: a device with a graphics-and-present queue family, the
required swapchain extension, anisotropic sampling and geometry-shader
support — every condition the claim lists — is nevertheless rejected because
it is an integrated rather than a discrete GPU, so selection on a machine
offering only this device produces no device. -/
theorem pick_physical_device_integrated_cex :
    spec_suitable_device
        { deviceType := DeviceType.integratedGpu
          geometryShader := true
          samplerAnisotropy := true
          availableExtensions := ["VK_KHR_swapchain"]
          queueFamilies := [{ queueCount := 1, graphics := true, present := true }]
          surfaceFormats := [0]
          presentModes := [0] } = true ∧
    pick_physical_device
        [{ deviceType := DeviceType.integratedGpu
           geometryShader := true
           samplerAnisotropy := true
           availableExtensions := ["VK_KHR_swapchain"]
           queueFamilies := [{ queueCount := 1, graphics := true, present := true }]
           surfaceFormats := [0]
           presentModes := [0] }] = none := by
  constructor
  · rfl
  · rfl

/-- C5 amended: physical-device selection returns the first enumerated device
satisfying the claim's four conditions (graphics queue family, present queue
family, required extensions, anisotropy and geometry-shader features) AND two
further conditions the source also imposes: the device must be a discrete
GPU, and the surface must report at least one format and at least one
present mode for it. When no enumerated device qualifies, no device is
produced and startup fails fatally. -/
theorem pick_physical_device_amended :
    (∀ d : PhysicalDevice,
      is_device_suitable d =
        (spec_suitable_device d && (d.deviceType == DeviceType.discreteGpu)
          && !d.surfaceFormats.isEmpty && !d.presentModes.isEmpty)) ∧
    (∀ (devices : List PhysicalDevice) (d : PhysicalDevice),
      pick_physical_device devices = some d →
        is_device_suitable d = true ∧
        ∃ pre post, devices = pre ++ d :: post ∧
          ∀ e ∈ pre, is_device_suitable e = false) ∧
    (∀ devices : List PhysicalDevice,
      pick_physical_device devices = none →
        initialize_physical_device devices = Except.error "No suitable physical device") := by
  refine ⟨?_, ?_, ?_⟩
  · intro d
    unfold is_device_suitable spec_suitable_device
    rcases hext : check_device_extension_support d.availableExtensions get_device_extensions
      with _ | _
    · simp [hext]
    · simp only [hext, if_true]
      cases (find_queue_families d.queueFamilies).is_complete <;>
        cases d.geometryShader <;>
        cases d.samplerAnisotropy <;>
        cases hdt : (d.deviceType == DeviceType.discreteGpu) <;>
        simp [Bool.and_comm, Bool.and_assoc, Bool.and_left_comm]
  · intro devices d h
    unfold pick_physical_device at h
    by_cases hlen : devices.length = 0
    · simp [hlen] at h
    · rw [if_neg hlen] at h
      exact find?_first_match is_device_suitable devices d h
  · intro devices h
    unfold initialize_physical_device
    rw [h]

/-! ## Memory-type selection theorems (C6) -/

/-- Helper: for a u32 type filter, the loop's bit test agrees with
Nat.testBit at every index. -/
theorem memory_type_test_eq_spec (tf req flags i : Nat) (hf : tf < 4294967296) :
    memory_type_test tf req flags i = (tf.testBit i && flags_contain flags req) := by
  unfold memory_type_test
  congr 1
  have h32 : (4294967296 : Nat) = 2 ^ 32 := by norm_num
  by_cases hi : i < 32
  · have hlt : 2 ^ i < 2 ^ 32 := Nat.pow_lt_pow_right (by norm_num) hi
    have hmod : (1 <<< i) % 4294967296 = 2 ^ i := by
      rw [Nat.shiftLeft_eq, one_mul, h32]
      exact Nat.mod_eq_of_lt hlt
    rw [hmod, Nat.and_two_pow]
    cases htb : tf.testBit i <;> simp [htb]
  · have hge : 32 ≤ i := Nat.le_of_not_lt hi
    have hmod : (1 <<< i) % 4294967296 = 0 := by
      rw [Nat.shiftLeft_eq, one_mul, h32]
      have hi' : i = 32 + (i - 32) := by omega
      rw [hi', pow_add]
      exact Nat.mul_mod_right _ _
    have htb : tf.testBit i = false :=
      Nat.testBit_eq_false_of_lt
        (lt_of_lt_of_le (h32 ▸ hf) (Nat.pow_le_pow_right (by norm_num) hge))
    rw [hmod, htb]
    simp

/-- Helper: a successful scan starting at offset k returns an in-range index
whose test passes while every earlier index from k fails it. -/
theorem find_memory_type_loop_some (tf req : Nat) :
    ∀ (ts : List MemoryType) (k i : Nat),
      find_memory_type_loop tf req k ts = some i →
      k ≤ i ∧ i - k < ts.length ∧
      memory_type_test tf req (ts.getD (i - k) default).propertyFlags i = true ∧
      ∀ j, k ≤ j → j < i →
        memory_type_test tf req (ts.getD (j - k) default).propertyFlags j = false := by
  intro ts
  induction ts with
  | nil => intro k i h; simp [find_memory_type_loop] at h
  | cons mt rest ih =>
      intro k i h
      rw [find_memory_type_loop] at h
      by_cases ht : memory_type_test tf req mt.propertyFlags k = true
      · rw [if_pos ht] at h
        cases h
        exact ⟨Nat.le_refl k, by simp, by simpa using ht, fun j h1 h2 => absurd h1 (by omega)⟩
      · have ht' : memory_type_test tf req mt.propertyFlags k = false := by
          simpa using ht
        rw [if_neg ht] at h
        obtain ⟨h1, h2, h3, h4⟩ := ih (k + 1) i h
        have hki : k ≤ i := Nat.le_of_succ_le h1
        have hik : i - k = (i - (k + 1)) + 1 := by omega
        refine ⟨hki, by simp only [List.length_cons]; omega, ?_, ?_⟩
        · rw [hik]
          simpa using h3
        · intro j hj1 hj2
          rcases Nat.eq_or_lt_of_le hj1 with rfl | hj
          · simpa [Nat.sub_self] using ht'
          · have := h4 j hj hj2
            have hjk : j - k = (j - (k + 1)) + 1 := by omega
            rw [hjk]
            simpa using this

/-- Helper: a fruitless scan starting at offset k means every entry of the
remaining table fails the test at its absolute index. -/
theorem find_memory_type_loop_none (tf req : Nat) :
    ∀ (ts : List MemoryType) (k : Nat),
      find_memory_type_loop tf req k ts = none ↔
      ∀ j, j < ts.length →
        memory_type_test tf req (ts.getD j default).propertyFlags (k + j) = false := by
  intro ts
  induction ts with
  | nil => intro k; simp [find_memory_type_loop]
  | cons mt rest ih =>
      intro k
      rw [find_memory_type_loop]
      by_cases ht : memory_type_test tf req mt.propertyFlags k = true
      · rw [if_pos ht]
        refine iff_of_false (by simp) ?_
        intro hall
        have := hall 0 (by simp)
        simp [ht] at this
      · have ht' : memory_type_test tf req mt.propertyFlags k = false := by
          simpa using ht
        rw [if_neg ht, ih (k + 1)]
        constructor
        · intro hrest j hj
          cases j with
          | zero => simpa only [List.getD_cons_zero, Nat.add_zero] using ht'
          | succ j' =>
              have hj' : j' < rest.length := by simpa using hj
              have hres := hrest j' hj'
              have heq : k + (j' + 1) = (k + 1) + j' := by omega
              rw [List.getD_cons_succ, heq]
              exact hres
        · intro hall j hj
          have hstep := hall (j + 1) (by simpa using Nat.succ_lt_succ hj)
          have heq : k + (j + 1) = (k + 1) + j := by omega
          rw [List.getD_cons_succ, heq] at hstep
          exact hstep

/-- C6: for every u32 type filter, required property flags and memory-type
table, find_memory_type returns the smallest index whose filter bit is set
and whose property flags contain the required flags, and reports failure
(the source panics) exactly when no index of the table qualifies. The result
is a pure function of the three inputs, so determinism over repeated calls
is definitional. -/
theorem find_memory_type_least (tf req : Nat) (ts : List MemoryType)
    (hf : tf < 4294967296) :
    (∀ i, find_memory_type tf req ts = some i →
        i < ts.length ∧ spec_memory_match tf req ts i ∧
        ∀ j, j < i → ¬ spec_memory_match tf req ts j) ∧
    (find_memory_type tf req ts = none ↔
      ∀ i, i < ts.length → ¬ spec_memory_match tf req ts i) := by
  constructor
  · intro i h
    obtain ⟨-, h2, h3, h4⟩ := find_memory_type_loop_some tf req ts 0 i h
    rw [Nat.sub_zero] at h2 h3
    refine ⟨h2, ?_, ?_⟩
    · rw [memory_type_test_eq_spec tf req _ i hf, Bool.and_eq_true] at h3
      exact ⟨h3.1, h3.2⟩
    · intro j hj hspec
      have hfail := h4 j (Nat.zero_le j) hj
      rw [Nat.sub_zero, memory_type_test_eq_spec tf req _ j hf] at hfail
      obtain ⟨hs1, hs2⟩ := hspec
      rw [hs1, hs2] at hfail
      exact Bool.noConfusion hfail
  · rw [show find_memory_type tf req ts = find_memory_type_loop tf req 0 ts from rfl,
      find_memory_type_loop_none]
    constructor
    · intro hall i hi hspec
      have hfail := hall i hi
      rw [Nat.zero_add, memory_type_test_eq_spec tf req _ i hf] at hfail
      obtain ⟨hs1, hs2⟩ := hspec
      rw [hs1, hs2] at hfail
      exact Bool.noConfusion hfail
    · intro hall j hj
      rw [Nat.zero_add, memory_type_test_eq_spec tf req _ j hf]
      have hns := hall j hj
      cases htb : tf.testBit j
      · simp
      · simp only [Bool.true_and]
        by_contra hcon
        exact hns ⟨htb, by simpa using hcon⟩

/-- C6 witness: on the filter 6 (bits 1 and 2), required flags 1 and the
table [flags 2, flags 3, flags 1], the selection returns index 1, the least
qualifying index. -/
theorem find_memory_type_least_witness :
    1 < ([{ propertyFlags := 2 }, { propertyFlags := 3 }, { propertyFlags := 1 }] :
          List MemoryType).length ∧
    spec_memory_match 6 1
      [{ propertyFlags := 2 }, { propertyFlags := 3 }, { propertyFlags := 1 }] 1 ∧
    ∀ j, j < 1 →
      ¬ spec_memory_match 6 1
        [{ propertyFlags := 2 }, { propertyFlags := 3 }, { propertyFlags := 1 }] j :=
  (find_memory_type_least 6 1
      [{ propertyFlags := 2 }, { propertyFlags := 3 }, { propertyFlags := 1 }]
      (by decide)).1 1 (by decide)

/-! ## Lemmas for the image-in-flight synchronization invariant -/

/-- Helper: checkTrace distributes over trace concatenation. -/
theorem checkTrace_append (p : List Nat) (l1 l2 : List Event) :
    checkTrace p (l1 ++ l2) =
      (checkTrace p l1 && checkTrace (l1.foldl stepPending p) l2) := by
  induction l1 generalizing p with
  | nil => simp [checkTrace]
  | cons e rest ih => simp [checkTrace, List.foldl_cons, ih, Bool.and_assoc]

/-- Helper: the pending entry at j after retiring fence f. -/
theorem clearFence_getD (f : Nat) (p : List Nat) (j : Nat) :
    (clearFence f p).getD j 0 = if p.getD j 0 = f then 0 else p.getD j 0 := by
  induction p generalizing j with
  | nil => simp [clearFence]
  | cons x xs ih =>
      cases j with
      | zero => simp [clearFence]
      | succ j' => simpa [clearFence] using ih j'

/-- Helper: clearing preserves the two-valued invariant on an entry. -/
theorem clearFence_getD_or (f : Nat) (p : List Nat) (j x : Nat)
    (h : p.getD j 0 = x ∨ p.getD j 0 = 0) :
    (clearFence f p).getD j 0 = x ∨ (clearFence f p).getD j 0 = 0 := by
  rw [clearFence_getD]
  rcases h with h | h
  · rw [h]
    split_ifs with hf
    · exact Or.inr rfl
    · exact Or.inl rfl
  · rw [h]
    split_ifs with hf
    · exact Or.inr rfl
    · exact Or.inr rfl

/-- Helper: clearing preserves length. -/
theorem clearFence_length (f : Nat) (p : List Nat) :
    (clearFence f p).length = p.length := by
  simp [clearFence]

/-- Helper: getD after set at the written index (in range). -/
theorem getD_set_self (p : List Nat) (i v : Nat) (h : i < p.length) :
    (p.set i v).getD i 0 = v := by
  induction p generalizing i with
  | nil => simp at h
  | cons x xs ih =>
      cases i with
      | zero => simp
      | succ i' => simpa using ih i' (by simpa using h)

/-- Helper: getD after set at another index. -/
theorem getD_set_ne (p : List Nat) (i j v : Nat) (h : j ≠ i) :
    (p.set i v).getD j 0 = p.getD j 0 := by
  induction p generalizing i j with
  | nil => simp
  | cons x xs ih =>
      cases i with
      | zero =>
          cases j with
          | zero => exact absurd rfl h
          | succ j' => simp
      | succ i' =>
          cases j with
          | zero => simp
          | succ j' => simpa using ih i' j' (fun hc => h (by rw [hc]))

/-- Helper: each single draw_frame trace is admissible under the invariant —
in particular its submission only happens after the image's claiming fence
(when one is recorded) has been waited on. -/
theorem draw_frame_trace_check (s : DrawState) (pending : List Nat)
    (acq : AcquireResult) (pres : PresentResult) (hinv : PendingInv pending s) :
    checkTrace pending (draw_frame s acq pres).1 = true := by
  obtain ⟨hlen, hor⟩ := hinv
  cases acq with
  | outOfDate => simp [draw_frame, checkTrace, eventOk, stepPending]
  | otherError => simp [draw_frame, checkTrace, eventOk, stepPending]
  | ok i =>
      by_cases him : s.image_fences.getD i 0 = 0
      · have hp : pending.getD i 0 = 0 := by
          rcases hor i with h | h
          · rw [h, him]
          · exact h
        have hclear :
            (clearFence (s.frame_fences.getD s.current_frame 0) pending).getD i 0 = 0 := by
          rw [clearFence_getD, hp]
          split_ifs <;> rfl
        simp [draw_frame, him, checkTrace, eventOk, stepPending, hclear,
          -List.getD_eq_getElem?_getD]
      · have hp2 :
            (clearFence (s.image_fences.getD i 0)
              (clearFence (s.frame_fences.getD s.current_frame 0) pending)).getD i 0 = 0 := by
          rw [clearFence_getD, clearFence_getD]
          rcases hor i with h | h
          · rw [h]
            by_cases hfw : s.image_fences.getD i 0 = s.frame_fences.getD s.current_frame 0
            · rw [if_pos hfw]
              split_ifs <;> rfl
            · rw [if_neg hfw, if_pos rfl]
          · rw [h]
            split_ifs <;> rfl
        simp [draw_frame, him, checkTrace, eventOk, stepPending, hp2,
          -List.getD_eq_getElem?_getD]

/-- Helper: one draw_frame step preserves the simulation invariant between
the checker's pending table and the scheduler's image_fences. -/
theorem draw_frame_pending_inv (s : DrawState) (pending : List Nat)
    (acq : AcquireResult) (pres : PresentResult) (s1 : DrawState)
    (hinv : PendingInv pending s)
    (hstep : (draw_frame s acq pres).2 = some s1) :
    PendingInv ((draw_frame s acq pres).1.foldl stepPending pending) s1 := by
  obtain ⟨hlen, hor⟩ := hinv
  cases acq with
  | outOfDate =>
      have hs : s = s1 := by simpa [draw_frame] using hstep
      subst hs
      have hfold : (draw_frame s .outOfDate pres).1.foldl stepPending pending =
          clearFence (s.frame_fences.getD s.current_frame 0) pending := by
        simp [draw_frame, stepPending]
      rw [hfold]
      exact ⟨by rw [clearFence_length]; exact hlen,
             fun j => clearFence_getD_or _ _ _ _ (hor j)⟩
  | otherError => simp [draw_frame] at hstep
  | ok i =>
      have himg : s1.image_fences =
          s.image_fences.set i (s.frame_fences.getD s.current_frame 0) := by
        rcases pres with sub | _ | _ <;> cases hfb : s.frame_buffer_resized <;>
          simp [draw_frame, hfb, -List.getD_eq_getElem?_getD] at hstep <;>
          rw [← hstep]
      by_cases him : s.image_fences.getD i 0 = 0
      · have hfold : (draw_frame s (.ok i) pres).1.foldl stepPending pending =
            (clearFence (s.frame_fences.getD s.current_frame 0) pending).set i
              (s.frame_fences.getD s.current_frame 0) := by
          simp [draw_frame, him, stepPending, -List.getD_eq_getElem?_getD]
        rw [hfold]
        unfold PendingInv
        rw [himg]
        have hqlen : (clearFence (s.frame_fences.getD s.current_frame 0) pending).length =
            s.image_fences.length := by rw [clearFence_length]; exact hlen
        refine ⟨by rw [List.length_set, List.length_set]; exact hqlen, fun j => ?_⟩
        by_cases hij : j = i
        · subst hij
          by_cases hjr : j < s.image_fences.length
          · left
            rw [getD_set_self _ _ _ (by rw [hqlen]; exact hjr),
                getD_set_self _ _ _ hjr]
          · right
            have h1 : s.image_fences.length ≤ j := Nat.le_of_not_lt hjr
            rw [List.set_eq_of_length_le (by rw [hqlen]; exact h1),
                List.getD_eq_default _ _ (by rw [hqlen]; exact h1)]
        · rw [getD_set_ne _ _ _ _ hij, getD_set_ne _ _ _ _ hij]
          exact clearFence_getD_or _ _ _ _ (hor j)
      · have hfold : (draw_frame s (.ok i) pres).1.foldl stepPending pending =
            (clearFence (s.image_fences.getD i 0)
              (clearFence (s.frame_fences.getD s.current_frame 0) pending)).set i
              (s.frame_fences.getD s.current_frame 0) := by
          simp [draw_frame, him, stepPending, -List.getD_eq_getElem?_getD]
        rw [hfold]
        unfold PendingInv
        rw [himg]
        have hqlen : (clearFence (s.image_fences.getD i 0)
            (clearFence (s.frame_fences.getD s.current_frame 0) pending)).length =
            s.image_fences.length := by rw [clearFence_length, clearFence_length]; exact hlen
        refine ⟨by rw [List.length_set, List.length_set]; exact hqlen, fun j => ?_⟩
        by_cases hij : j = i
        · subst hij
          by_cases hjr : j < s.image_fences.length
          · left
            rw [getD_set_self _ _ _ (by rw [hqlen]; exact hjr),
                getD_set_self _ _ _ hjr]
          · right
            have h1 : s.image_fences.length ≤ j := Nat.le_of_not_lt hjr
            rw [List.set_eq_of_length_le (by rw [hqlen]; exact h1),
                List.getD_eq_default _ _ (by rw [hqlen]; exact h1)]
        · rw [getD_set_ne _ _ _ _ hij, getD_set_ne _ _ _ _ hij]
          exact clearFence_getD_or _ _ _ _ (clearFence_getD_or _ _ _ _ (hor j))

/-- Helper: over any run of frames, every trace from a state satisfying the
invariant passes the checker. -/
theorem run_frames_check (inputs : List (AcquireResult × PresentResult)) :
    ∀ (s : DrawState) (pending : List Nat), PendingInv pending s →
      checkTrace pending (run_frames s inputs).1 = true := by
  induction inputs with
  | nil => intro s pending _; rfl
  | cons inp rest ih =>
      intro s pending hinv
      rcases hstep : (draw_frame s inp.1 inp.2).2 with _ | s1
      · have htr : (run_frames s (inp :: rest)).1 = (draw_frame s inp.1 inp.2).1 := by
          simp [run_frames, hstep]
        rw [htr]
        exact draw_frame_trace_check s pending inp.1 inp.2 hinv
      · have htr : (run_frames s (inp :: rest)).1 =
            (draw_frame s inp.1 inp.2).1 ++ (run_frames s1 rest).1 := by
          simp [run_frames, hstep]
        rw [htr, checkTrace_append, Bool.and_eq_true]
        exact ⟨draw_frame_trace_check s pending inp.1 inp.2 hinv,
               ih s1 _ (draw_frame_pending_inv s pending inp.1 inp.2 s1 hinv hstep)⟩

/-- C1: starting from the initial state (image_fences all null, frame slot
0), for every sequence of frames — any interleaving of acquired image
indices, acquire staleness and present results — the call trace of the run
is well synchronized: whenever draw_frame submits work referencing swapchain
image i while image_fences[i] held a non-null fence, a wait on exactly that
fence occurs in the trace after the fence last claimed i and before the
submission, and the slot's fence is recorded as the new claimant; so no
submission referencing image i happens without an intervening wait on the
fence that last claimed i. -/
theorem draw_frame_image_fence_sync (frameFences : List Nat) (numImages : Nat)
    (inputs : List (AcquireResult × PresentResult))
    (_hf : ∀ f ∈ frameFences, f ≠ 0) :
    checkTrace (List.replicate numImages 0)
      (run_frames
        { frame_fences := frameFences
          image_fences := List.replicate numImages 0
          current_frame := 0
          frame_buffer_resized := false } inputs).1 = true := by
  apply run_frames_check
  exact ⟨rfl, fun j => Or.inl rfl⟩

/-- C1 witness: a concrete run with 2 frame slots, 3 swapchain images and
six ticks that revisit images 0 and 1 across slots (also crossing a resize
and an out-of-date acquire) passes the checker. -/
theorem draw_frame_image_fence_sync_witness :
    checkTrace (List.replicate 3 0)
      (run_frames
        { frame_fences := [7, 9]
          image_fences := List.replicate 3 0
          current_frame := 0
          frame_buffer_resized := false }
        [(.ok 0, .ok false), (.ok 1, .ok false), (.ok 0, .ok false),
         (.outOfDate, .ok false), (.ok 2, .ok true), (.ok 0, .ok false)]).1 = true :=
  draw_frame_image_fence_sync [7, 9] 3
    [(.ok 0, .ok false), (.ok 1, .ok false), (.ok 0, .ok false),
     (.outOfDate, .ok false), (.ok 2, .ok true), (.ok 0, .ok false)]
    (by decide)

/-- C7: when acquire reports the swapchain out of date, draw_frame rebuilds
the swapchain and returns for that tick without panicking (the state,
including the frame-slot index, is returned unchanged), with no submission
and no presentation in the tick's trace; and on a following tick with a
successful acquire, a submission is made again. -/
theorem draw_frame_out_of_date_skips_tick (s : DrawState) (pres : PresentResult) :
    (draw_frame s .outOfDate pres).2 = some s ∧
    Event.recreateSwapchain ∈ (draw_frame s .outOfDate pres).1 ∧
    (∀ i f, Event.submitCommands i f ∉ (draw_frame s .outOfDate pres).1) ∧
    (∀ i, Event.presentImage i ∉ (draw_frame s .outOfDate pres).1) ∧
    (∀ i, Event.submitCommands i (s.frame_fences.getD s.current_frame 0) ∈
        (draw_frame s (.ok i) (.ok false)).1) := by
  refine ⟨rfl, ?_, ?_, ?_, ?_⟩
  · simp [draw_frame]
  · intro i f
    simp [draw_frame]
  · intro i
    simp [draw_frame]
  · intro i
    by_cases him : s.image_fences.getD i 0 = 0 <;>
      simp [draw_frame, him, -List.getD_eq_getElem?_getD]

/-- C2 counterexample: at the concrete state with frame fences [7, 9], three
in-flight-free images, slot 0 and the resize flag clear, an
ERROR_OUT_OF_DATE_KHR result from queue_present makes draw_frame panic
(modelled as `none`) — the stale surface is NOT absorbed into a deferred
rebuild; and with the resize flag set, the flag is merely cleared: the
resulting state has the flag false and the trace contains no swapchain
recreation, so nothing is marked or rebuilt for the next iteration either. -/
theorem draw_frame_present_stale_cex :
    (draw_frame
        { frame_fences := [7, 9], image_fences := [0, 0, 0]
          current_frame := 0, frame_buffer_resized := false }
        (.ok 0) .errOutOfDate).2 = none ∧
    (draw_frame
        { frame_fences := [7, 9], image_fences := [0, 0, 0]
          current_frame := 0, frame_buffer_resized := true }
        (.ok 0) (.ok false)).2 =
      some { frame_fences := [7, 9], image_fences := [7, 0, 0]
             current_frame := 1, frame_buffer_resized := false } ∧
    Event.recreateSwapchain ∉
      (draw_frame
        { frame_fences := [7, 9], image_fences := [0, 0, 0]
          current_frame := 0, frame_buffer_resized := true }
        (.ok 0) (.ok false)).1 := by
  refine ⟨rfl, rfl, by decide⟩

/-- C2 amended: draw_frame never recreates the swapchain mid-present, but it
does not mark it for recreation either. When the resize flag is set at
present time the flag is just cleared (any present result is then ignored,
so a resize never panics); when the flag is clear, a stale/out-of-date — or
any other erroneous — present result panics the process. The resize events
of main_loop only set the flag. -/
theorem draw_frame_present_handling_amended (s : DrawState) (i : Nat)
    (pres : PresentResult) :
    (s.frame_buffer_resized = true →
      (draw_frame s (.ok i) pres).2 =
        some { s with
               image_fences :=
                 s.image_fences.set i (s.frame_fences.getD s.current_frame 0)
               frame_buffer_resized := false
               current_frame := (s.current_frame + 1) % MAX_FRAMES_IN_FLIGHT } ∧
      Event.recreateSwapchain ∉ (draw_frame s (.ok i) pres).1) ∧
    (s.frame_buffer_resized = false →
      (draw_frame s (.ok i) .errOutOfDate).2 = none ∧
      (draw_frame s (.ok i) .errOther).2 = none) ∧
    (handle_resize_event s).frame_buffer_resized = true := by
  refine ⟨fun hres => ⟨?_, ?_⟩, fun hres => ⟨?_, ?_⟩, rfl⟩
  · rcases pres with sub | _ | _ <;>
      simp [draw_frame, hres, -List.getD_eq_getElem?_getD]
  · by_cases him : s.image_fences.getD i 0 = 0 <;>
      simp [draw_frame, him, -List.getD_eq_getElem?_getD]
  · simp [draw_frame, hres, -List.getD_eq_getElem?_getD]
  · simp [draw_frame, hres, -List.getD_eq_getElem?_getD]

/-- C9: update_uniform_buffer for image index i writes only the
uniform-buffer memory owned by index i: any memory handle other than
uniform_buffers_memory[i] — in particular the memory of every other uniform
buffer j ≠ i, their handles being distinct — is left unchanged, and every
field of the engine state is unchanged. -/
theorem update_uniform_buffer_isolated (s : RenderResources) (i j h : Nat)
    (hh : h ≠ s.uniform_buffers_memory.getD i 0)
    (hij : j ≠ i)
    (hi : i < s.uniform_buffers_memory.length)
    (hj : j < s.uniform_buffers_memory.length)
    (hnd : s.uniform_buffers_memory.Nodup) :
    (update_uniform_buffer s i).device_memory h = s.device_memory h ∧
    (update_uniform_buffer s i).device_memory (s.uniform_buffers_memory.getD j 0) =
      s.device_memory (s.uniform_buffers_memory.getD j 0) ∧
    (update_uniform_buffer s i).uniform_buffers = s.uniform_buffers ∧
    (update_uniform_buffer s i).uniform_buffers_memory = s.uniform_buffers_memory ∧
    (update_uniform_buffer s i).swapchain_extent = s.swapchain_extent ∧
    (update_uniform_buffer s i).start_time = s.start_time ∧
    (update_uniform_buffer s i).now_time = s.now_time ∧
    (update_uniform_buffer s i).current_frame = s.current_frame ∧
    (update_uniform_buffer s i).frame_buffer_resized = s.frame_buffer_resized := by
  have hne : s.uniform_buffers_memory.getD j 0 ≠ s.uniform_buffers_memory.getD i 0 := by
    rw [List.getD_eq_getElem _ _ hj, List.getD_eq_getElem _ _ hi]
    intro hc
    exact hij ((List.Nodup.getElem_inj_iff hnd).mp hc)
  refine ⟨?_, ?_, rfl, rfl, rfl, rfl, rfl, rfl, rfl⟩
  · simp [update_uniform_buffer, hh, -List.getD_eq_getElem?_getD]
  · simp [update_uniform_buffer, hne, -List.getD_eq_getElem?_getD]

/-- C9 witness: writing image 0's uniform buffer leaves handle 5, buffer 1's
handle, and every field untouched. -/
theorem update_uniform_buffer_isolated_witness :
    (update_uniform_buffer sample_render_resources 0).device_memory 5 =
      sample_render_resources.device_memory 5 ∧
    (update_uniform_buffer sample_render_resources 0).device_memory
        (sample_render_resources.uniform_buffers_memory.getD 1 0) =
      sample_render_resources.device_memory
        (sample_render_resources.uniform_buffers_memory.getD 1 0) ∧
    (update_uniform_buffer sample_render_resources 0).uniform_buffers =
      sample_render_resources.uniform_buffers ∧
    (update_uniform_buffer sample_render_resources 0).uniform_buffers_memory =
      sample_render_resources.uniform_buffers_memory ∧
    (update_uniform_buffer sample_render_resources 0).swapchain_extent =
      sample_render_resources.swapchain_extent ∧
    (update_uniform_buffer sample_render_resources 0).start_time =
      sample_render_resources.start_time ∧
    (update_uniform_buffer sample_render_resources 0).now_time =
      sample_render_resources.now_time ∧
    (update_uniform_buffer sample_render_resources 0).current_frame =
      sample_render_resources.current_frame ∧
    (update_uniform_buffer sample_render_resources 0).frame_buffer_resized =
      sample_render_resources.frame_buffer_resized :=
  update_uniform_buffer_isolated sample_render_resources 0 1 5
    (by decide) (by decide) (by decide) (by decide) (by decide)

end RendererVK

